import Mathlib

/-!
Verification of the CueMesh synchronization core against its specification.

The definitions below are a shallow embedding of the Python sources:

* src/shared/protocol.py  — envelope codec (make_envelope / parse_envelope)
* src/shared/clock_sync.py — SyncSample, ClockSyncState, compute_drift_correction
* src/controller/server.py — ClientSession admission, trust store, reader loop
* src/client/connection.py — LOAD_CUE / PLAY_AT handlers
* src/client/clock_client.py — drift loop bookkeeping

Python floats are modelled as rationals, Python ints as Int, Python dicts as
association lists with dict update/erase semantics.  Fallible Python code
(raised exceptions) is modelled with Option / Except.
-/

/-! ## JSON values and the envelope codec (src/shared/protocol.py)

A frame on the wire is a JSON text.  We model frames at the level of parsed
JSON values: a well-formed JSON text corresponds to a `Json` value, and a
text that is not well-formed JSON has no `Json` counterpart (json.loads
raises before parse_envelope looks at the data).  JSON numbers are modelled
as integers, which covers every numeric field the protocol uses. -/

inductive Json where
  | null : Json
  | bool (b : Bool) : Json
  | num (n : Int) : Json
  | str (s : String) : Json
  | arr (elems : List Json) : Json
  | obj (fields : List (String × Json)) : Json

/-- Association-list lookup, mirroring Python dict access by key
(keys of a dict produced by json.loads are unique). -/
def dictGet {α : Type} : List (String × α) → String → Option α
  | [], _ => none
  | (k', v) :: rest, k => if k' = k then some v else dictGet rest k

/-- Python dict assignment `d[k] = v`: replace in place if the key exists,
otherwise append (insertion order preserved). -/
def dictSet {α : Type} : List (String × α) → String → α → List (String × α)
  | [], k, v => [(k, v)]
  | (k', v') :: rest, k, v =>
      if k' = k then (k, v) :: rest else (k', v') :: dictSet rest k v

/-- Python `del d[k]` for a dict (unique keys): remove the binding of `k`. -/
def dictErase {α : Type} : List (String × α) → String → List (String × α)
  | [], _ => []
  | (k', v') :: rest, k =>
      if k' = k then dictErase rest k else (k', v') :: dictErase rest k

/-- Source: make_envelope (src/shared/protocol.py:13-14).
`json.dumps({"type": msg_type, "ts_utc_ms": _now_ms(), "payload": payload})`.
The wall-clock stamp `_now_ms()` is passed in as `now`. -/
def make_envelope (msg_type : String) (now : Int) (payload : List (String × Json)) : Json :=
  Json.obj [("type", Json.str msg_type), ("ts_utc_ms", Json.num now),
            ("payload", Json.obj payload)]

/-- Source: parse_envelope (src/shared/protocol.py:17-19).
`data = json.loads(raw); return data["type"], data.get("ts_utc_ms", 0), data.get("payload", \x7b\x7d)`.
Subscripting a non-dict raises TypeError; a dict without the key raises
KeyError; `.get` supplies the defaults for the other two fields.  Note the
code performs no check that the type field is a string or that the payload
is a map: whatever values are present are returned as they are. -/
def parse_envelope (data : Json) : Except String (Json × Json × Json) :=
  match data with
  | Json.obj fields =>
      match dictGet fields "type" with
      | some t =>
          Except.ok (t, (dictGet fields "ts_utc_ms").getD (Json.num 0),
                     (dictGet fields "payload").getD (Json.obj []))
      | none => Except.error "KeyError: type"
  | _ => Except.error "TypeError: frame is not a JSON object"

/-! ## Clock-sync math (src/shared/clock_sync.py) -/

/-- Source: SyncSample (src/shared/clock_sync.py:9-23). -/
structure SyncSample where
  t1 : Int
  t2 : Int
  t3 : Int
  t4 : Int
deriving DecidableEq

/-- Source: SyncSample.rtt_ms (src/shared/clock_sync.py:16-18). -/
def SyncSample.rtt_ms (s : SyncSample) : Int :=
  (s.t4 - s.t1) - (s.t3 - s.t2)

/-- Source: SyncSample.offset_ms (src/shared/clock_sync.py:20-23):
`((t2 - t1) + (t3 - t4)) / 2.0`, a float, modelled as a rational. -/
def SyncSample.offset_ms (s : SyncSample) : ℚ :=
  (((s.t2 - s.t1) + (s.t3 - s.t4) : Int) : ℚ) / 2

/-- Insert into a sorted list, the elementary step of a comparison sort. -/
def insSorted (x : ℚ) : List ℚ → List ℚ
  | [] => [x]
  | y :: ys => if x ≤ y then x :: y :: ys else y :: insSorted x ys

/-- Comparison sort of a list of rationals (the result of Python sorted). -/
def sortQ : List ℚ → List ℚ
  | [] => []
  | x :: xs => insSorted x (sortQ xs)

/-- Python statistics.median: sort; odd length takes the middle element,
even length averages the two middle elements.  (The source only applies it
to non-empty lists; on [] we return 0 where Python would raise.) -/
def median (l : List ℚ) : ℚ :=
  let s := sortQ l
  let n := l.length
  if n % 2 = 1 then s.getD (n / 2) 0
  else (s.getD (n / 2 - 1) 0 + s.getD (n / 2) 0) / 2

/-- Source: ClockSyncState (src/shared/clock_sync.py:26-34): the rolling
window of samples plus the current offset estimate (initially 0). -/
structure ClockSyncState where
  samples : List SyncSample
  offset_ms : ℚ

/-- Source: ClockSyncState.WINDOW (src/shared/clock_sync.py:29). -/
def WINDOW : Nat := 8

/-- Source: ClockSyncState.OUTLIER_FACTOR (src/shared/clock_sync.py:30). -/
def OUTLIER_FACTOR : ℚ := 2

/-- Fresh estimator: `_samples = []`, `_offset_ms = 0.0`. -/
def ClockSyncState.init : ClockSyncState := ⟨[], 0⟩

/-- Source: ClockSyncState._recompute (src/shared/clock_sync.py:42-54).
If the window is empty, return.  With at least 3 samples, keep the samples
whose rtt is at most median(rtt) times OUTLIER_FACTOR, else keep all; if
the kept list is non-empty, the offset becomes the median of its offsets
(otherwise the previous offset is kept). -/
def recompute (st : ClockSyncState) : ClockSyncState :=
  if st.samples = [] then st
  else
    let rtts : List ℚ := st.samples.map (fun s => (s.rtt_ms : ℚ))
    let good :=
      if 3 ≤ rtts.length then
        st.samples.filter (fun s => (s.rtt_ms : ℚ) ≤ median rtts * OUTLIER_FACTOR)
      else st.samples
    if good = [] then st
    else { st with offset_ms := median (good.map SyncSample.offset_ms) }

/-- Source: ClockSyncState.add_sample (src/shared/clock_sync.py:36-40):
append, pop the oldest while over the window size, recompute. -/
def add_sample (st : ClockSyncState) (s : SyncSample) : ClockSyncState :=
  let appended := st.samples ++ [s]
  let trimmed := if WINDOW < appended.length then appended.drop 1 else appended
  recompute { st with samples := trimmed }

/-- Truncation of a rational toward zero, the behaviour of Python int(x)
on a float. -/
def truncQ (q : ℚ) : Int :=
  if 0 ≤ q then ⌊q⌋ else ⌈q⌉

/-- Source: ClockSyncState.master_now_ms (src/shared/clock_sync.py:61-65):
`int(local_utc_ms - self._offset_ms)`. -/
def master_now_ms (st : ClockSyncState) (local_utc_ms : Int) : Int :=
  truncQ ((local_utc_ms : ℚ) - st.offset_ms)

/-! ## Drift-correction decision (src/shared/clock_sync.py:72-101) -/

/-- Python round-half-to-even of a rational to an integer (the tie rule of
round()). -/
def roundHalfEven (q : ℚ) : Int :=
  let f := ⌊q⌋
  let r := q - f
  if r < 1/2 then f
  else if 1/2 < r then f + 1
  else if f % 2 = 0 then f else f + 1

/-- Python round(x, 4): round half to even at the fourth decimal place. -/
def round4 (q : ℚ) : ℚ :=
  (roundHalfEven (q * 10000) : ℚ) / 10000

/-- Source: compute_drift_correction (src/shared/clock_sync.py:72-101).
Returns none exactly where the Python raises ZeroDivisionError (the line
`scale = abs_drift / max_drift_ms` with max_drift_ms = 0); otherwise some
(action, rate).  Branch order follows the source: the hard-seek test first,
then the small-drift proportional band, then the fall-through. -/
def compute_drift_correction (drift_ms : ℚ) (max_drift_ms hard_seek_threshold_ms : Int)
    (rate_min rate_max : ℚ) : Option (String × ℚ) :=
  let abs_drift := |drift_ms|
  if (hard_seek_threshold_ms : ℚ) < abs_drift then some ("hard_seek", 1)
  else if abs_drift ≤ (max_drift_ms : ℚ) then
    if max_drift_ms = 0 then none
    else
      let scale := abs_drift / (max_drift_ms : ℚ)
      if 0 < drift_ms then
        some ("rate_adjust", round4 (max rate_min (1 - scale * (1 - rate_min))))
      else
        some ("rate_adjust", round4 (min rate_max (1 + scale * (rate_max - 1))))
  else some ("none", 1)

/-! ## Controller session manager (src/controller/server.py)

The embedding keeps the ClientSession fields that the claims observe:
the identity of the underlying connection (`conn`, standing for the
websocket object), the client id, the trust token and the admission
status.  Telemetry fields (hostname, platform, capabilities, state,
position, drift, heartbeat) are carried by the source but not consulted
by any claim. -/

structure ClientSession where
  conn : Nat
  client_id : String
  token : Option String
  status : String
deriving DecidableEq

/-- Live coordinator state: the live-session map `_clients` (client_id to
session) and the trust store `_trusted` (client_id to token), both Python
dicts (src/controller/server.py:78-79). -/
structure ControllerState where
  clients : List (String × ClientSession)
  trusted : List (String × String)
deriving DecidableEq

/-- Source: ControllerServer._on_hello (src/controller/server.py:143-168).
A fresh session (status pending) is created and installed in the map under
its client_id, replacing any previous entry.  Then, if the presented token
is truthy and equals the trust-store entry for this client_id
(`if token and self._trusted.get(client_id) == token`), the session is
marked accepted with that token.  Returns the new state and the session
the reader loop will hold. -/
def on_hello (st : ControllerState) (conn : Nat) (client_id : String)
    (token : Option String) : ControllerState × ClientSession :=
  let base : ClientSession := ⟨conn, client_id, none, "pending"⟩
  let sess :=
    match token with
    | some t =>
        if t ≠ "" ∧ dictGet st.trusted client_id = some t then
          { base with token := some t, status := "accepted" }
        else base
    | none => base
  ({ st with clients := dictSet st.clients client_id sess }, sess)

/-- Source: ControllerServer.accept_client (src/controller/server.py:217-228).
If the client_id has no live session, return.  Otherwise generate a fresh
token (`str(uuid.uuid4())`, passed in here as fresh_token; a uuid4 string
is never empty), mark the session accepted with it, and store it in the
trust store. -/
def accept_client (st : ControllerState) (client_id : String)
    (fresh_token : String) : ControllerState :=
  match dictGet st.clients client_id with
  | none => st
  | some sess =>
      let sess' := { sess with token := some fresh_token, status := "accepted" }
      { clients := dictSet st.clients client_id sess',
        trusted := dictSet st.trusted client_id fresh_token }

/-- Source: the finally block of ControllerServer._handle_client
(src/controller/server.py:136-141): `del self._clients[session.client_id]`
removes the map entry under the client_id of the session this reader held,
whatever session the map currently stores there. -/
def disconnect_cleanup (st : ControllerState) (sess : ClientSession) : ControllerState :=
  { st with clients := dictErase st.clients sess.client_id }

/-- The exit path of ControllerServer._handle_client: the finally block
runs the cleanup when the reader held a session. -/
def reader_exit (st : ControllerState) (sess : Option ClientSession) : ControllerState :=
  match sess with
  | some s => disconnect_cleanup st s
  | none => st

/-- Source: the reader loop of ControllerServer._handle_client
(src/controller/server.py:112-141).  Each incoming frame is decoded by
parse_envelope; the per-message dispatch (HELLO, AUTH, STATUS, ...) is
abstracted as the `handle` parameter, since the loop structure is the same
whatever the dispatch does.  The try block catches only ConnectionClosed,
so a decode failure propagates: the loop ends, the remaining frames are
never read, and the finally block removes the session. -/
def handle_client_loop
    (handle : ControllerState → Option ClientSession → Json × Json × Json →
      ControllerState × Option ClientSession) :
    ControllerState → Option ClientSession → List Json → ControllerState
  | st, sess, [] => reader_exit st sess
  | st, sess, frame :: rest =>
      match parse_envelope frame with
      | Except.error _ => reader_exit st sess
      | Except.ok msg =>
          let next := handle st sess msg
          handle_client_loop handle next.1 next.2 rest

/-! ## Agent playback driver (src/client/connection.py, src/client/clock_client.py) -/

/-- Source: ClockClient (src/client/clock_client.py:14-35): the sync
estimator plus the playback record (_cue_start_master_ms,
_cue_start_time_ms, _playing) used by the drift loop.  The correction
configuration fields hold defaults the claims do not vary. -/
structure ClockClient where
  sync_state : ClockSyncState
  cue_start_master_ms : Option Int
  cue_start_time_ms : Int
  playing : Bool

/-- Source: ClockClient.set_playing (src/client/clock_client.py:56-62):
record the pair (master start, cue start time) and mark playing. -/
def set_playing (c : ClockClient) (master_start_utc_ms cue_start_time_ms : Int) : ClockClient :=
  { c with cue_start_master_ms := some master_start_utc_ms,
           cue_start_time_ms := cue_start_time_ms,
           playing := true }

/-- Source: ClientConnection._handle_play_at (src/client/connection.py:235-255).
After the scheduled wait and mpv.play(), the handler starts drift
correction with `cue_start_ms = 0` (connection.py:254, marked TODO in the
source): the start time of the loaded cue is not consulted, nor carried by
the PLAY_AT payload. -/
def handle_play_at (c : ClockClient) (master_start_utc_ms : Int) : ClockClient :=
  set_playing c master_start_utc_ms 0

/-- Source: ClockClient._correct_drift (src/client/clock_client.py:87-95):
`master_now = local_to_master(now)`, `elapsed = master_now −
cue_start_master`, `expected_pos = elapsed + cue_start_time`.  None when no
start is recorded (the drift loop only runs while one is). -/
def correct_drift_expected (c : ClockClient) (local_now_ms : Int) : Option Int :=
  match c.cue_start_master_ms with
  | none => none
  | some m => some ((master_now_ms c.sync_state local_now_ms - m) + c.cue_start_time_ms)

/-- Messages the LOAD_CUE handler can emit back to the coordinator. -/
inductive AgentMsg where
  | ready (cue_id : String) : AgentMsg
  | errorReport (cue_id : String) (reason : String) : AgentMsg
deriving DecidableEq

/-- Client-side observable state for the LOAD_CUE handler. -/
structure AgentConn where
  state : String
  current_cue_id : Option String
deriving DecidableEq

/-- Parameter count of MpvController.load_file
(src/client/mpv_controller.py:166): `async def load_file(self, rel_path)`
takes exactly one argument beside self. -/
def load_file_param_count : Nat := 1

/-- Positional argument count at the call site in
ClientConnection._handle_load_cue (src/client/connection.py:222):
`self.mpv.load_file(rel_path, fade_in_ms, fade_out_ms, end_time_ms)`. -/
def load_file_call_arg_count : Nat := 4

/-- Source: ClientConnection._handle_load_cue (src/client/connection.py:203-233)
under its caller _handle_message, which is wrapped in a per-message
try/except that logs and continues (src/client/connection.py:88-92).
The handler sets state loading and records the cue id, then calls
mpv.load_file with four positional arguments.  MpvController.load_file
accepts exactly one, so the call raises TypeError before `ok` is bound;
the wrapper catches it, and neither the READY branch nor the ERROR branch
below the call runs.  The `mpv_ok` parameter stands for the media-player
confirmation those branches would consult if the arities matched. -/
def handle_load_cue (mpv_ok : Bool) (st : AgentConn) (cue_id : String) :
    AgentConn × List AgentMsg :=
  let st1 : AgentConn := { st with state := "loading", current_cue_id := some cue_id }
  if load_file_call_arg_count = load_file_param_count then
    if mpv_ok then ({ st1 with state := "ready" }, [AgentMsg.ready cue_id])
    else ({ st1 with state := "error" },
          [AgentMsg.errorReport cue_id "Failed to load file"])
  else (st1, [])

/-! ## Spec-side reading of the offset invariant (claim C2)

This definition follows the words of the specification, to be compared
with the behaviour of `add_sample`: the offset is claimed to be the median
of the offsets of the samples whose rtt is at most twice the median rtt
when the window holds at least 3 samples, the median of all offsets for 1
or 2 samples, and 0 when the window is empty.  When the retained subset is
empty the claimed value does not exist (the median of an empty collection
is undefined), which this reading records as none. -/
def specOffset (samples : List SyncSample) : Option ℚ :=
  if samples = [] then some 0
  else
    let rtts : List ℚ := samples.map (fun s => (s.rtt_ms : ℚ))
    if 3 ≤ rtts.length then
      let retained := samples.filter (fun s => (s.rtt_ms : ℚ) ≤ median rtts * OUTLIER_FACTOR)
      if retained = [] then none
      else some (median (retained.map SyncSample.offset_ms))
    else some (median (samples.map SyncSample.offset_ms))

/-! ## Helper lemmas -/

theorem dictGet_dictSet_self {α : Type} (l : List (String × α)) (k : String) (v : α) :
    dictGet (dictSet l k v) k = some v := by
  induction l with
  | nil => simp [dictSet, dictGet]
  | cons kv rest ih =>
      obtain ⟨k', v'⟩ := kv
      by_cases h : k' = k
      · simp [dictSet, h, dictGet]
      · simp [dictSet, h, dictGet, ih]

theorem dictGet_dictErase_self {α : Type} (l : List (String × α)) (k : String) :
    dictGet (dictErase l k) k = none := by
  induction l with
  | nil => simp [dictErase, dictGet]
  | cons kv rest ih =>
      obtain ⟨k', v'⟩ := kv
      by_cases h : k' = k
      · simp [dictErase, h, ih]
      · simp [dictErase, h, dictGet, ih]

theorem recompute_samples (st : ClockSyncState) : (recompute st).samples = st.samples := by
  unfold recompute
  split
  · rfl
  · dsimp only
    repeat' split
    all_goals rfl

/-- Whenever the spec-side offset is defined for the current window,
recompute sets exactly that offset. -/
theorem recompute_matches_spec (st : ClockSyncState) (v : ℚ)
    (hne : st.samples ≠ []) (hs : specOffset st.samples = some v) :
    (recompute st).offset_ms = v := by
  unfold recompute
  unfold specOffset at hs
  rw [if_neg hne] at hs
  rw [if_neg hne]
  dsimp only at hs ⊢
  split_ifs at hs ⊢ <;> simp_all

theorem add_sample_samples_ne_nil (st : ClockSyncState) (s : SyncSample) :
    (add_sample st s).samples ≠ [] := by
  unfold add_sample
  rw [recompute_samples]
  dsimp only
  split
  · rename_i h
    simp only [WINDOW, List.length_append, List.length_cons, List.length_nil] at h
    intro hnil
    have hlen := congrArg List.length hnil
    simp only [List.length_drop, List.length_append, List.length_cons, List.length_nil] at hlen
    omega
  · simp

theorem roundHalfEven_le_int (q : ℚ) (n : Int) (h : q ≤ (n : ℚ)) :
    roundHalfEven q ≤ n := by
  have hfl : ⌊q⌋ ≤ n := by
    have := Int.floor_le_floor h
    simpa using this
  unfold roundHalfEven
  dsimp only
  split
  · exact hfl
  · rename_i hr
    have hge : (1 : ℚ)/2 ≤ q - ⌊q⌋ := not_lt.mp hr
    have hfl_lt : ⌊q⌋ < n := by
      by_contra hc
      have heq : ⌊q⌋ = n := le_antisymm hfl (not_lt.mp hc)
      have h1 : q - n ≥ 1/2 := by rw [heq] at hge; exact hge
      have h2 : q - n ≤ 0 := by linarith
      linarith
    split
    · omega
    · split
      · omega
      · omega

theorem int_le_roundHalfEven (q : ℚ) (n : Int) (h : (n : ℚ) ≤ q) :
    n ≤ roundHalfEven q := by
  have hfl : n ≤ ⌊q⌋ := Int.le_floor.mpr h
  unfold roundHalfEven
  dsimp only
  split
  · exact hfl
  · split
    · omega
    · split
      · omega
      · omega

theorem round4_le_one (q : ℚ) (h : q ≤ 1) : round4 q ≤ 1 := by
  unfold round4
  have h1 : q * 10000 ≤ ((10000 : Int) : ℚ) := by push_cast; linarith
  have h2 : roundHalfEven (q * 10000) ≤ 10000 := roundHalfEven_le_int _ _ h1
  rw [div_le_one (by norm_num)]
  exact_mod_cast h2

theorem one_le_round4 (q : ℚ) (h : 1 ≤ q) : 1 ≤ round4 q := by
  unfold round4
  have h1 : ((10000 : Int) : ℚ) ≤ q * 10000 := by push_cast; linarith
  have h2 : (10000 : Int) ≤ roundHalfEven (q * 10000) := int_le_roundHalfEven _ _ h1
  rw [le_div_iff₀ (by norm_num)]
  have h3 : ((10000 : Int) : ℚ) ≤ (roundHalfEven (q * 10000) : ℚ) := by exact_mod_cast h2
  push_cast at h3 ⊢
  linarith

theorem round4_one : round4 1 = 1 := by
  unfold round4 roundHalfEven
  norm_num

theorem roundHalfEven_intCast (n : Int) : roundHalfEven (n : ℚ) = n := by
  norm_num [roundHalfEven, Int.floor_intCast]

/-- Rounding to four decimal places is the identity on rationals that
already have at most four decimal places. -/
theorem round4_four_decimals (n : Int) : round4 ((n : ℚ) / 10000) = (n : ℚ) / 10000 := by
  unfold round4
  have h : ((n : ℚ) / 10000) * 10000 = (n : ℚ) := by field_simp
  rw [h, roundHalfEven_intCast]

/-! ## Claim theorems -/

/-- C9: for every message type and every payload expressible on the wire,
decoding an encoded envelope yields the same type, the stamped timestamp,
and a payload equal to the original. -/
theorem C9_envelope_round_trip (msg_type : String) (now : Int)
    (payload : List (String × Json)) :
    parse_envelope (make_envelope msg_type now payload) =
      Except.ok (Json.str msg_type, Json.num now, Json.obj payload) := by
  simp [make_envelope, parse_envelope, dictGet]

/-- C6 counterexample: a frame whose type field is the number 5 and whose
payload is an array is not a well-formed tagged record with a string type
and a map payload, yet parse_envelope succeeds on it, returning the
non-string type value and the non-map payload as they are — so decode does
not fail exactly on the frames the claim describes. -/
theorem C6_counterexample :
    parse_envelope (Json.obj [("type", Json.num 5), ("payload", Json.arr [])]) =
      Except.ok (Json.num 5, Json.num 0, Json.arr []) := by
  simp [parse_envelope, dictGet]

/-- C6 (amended): parse_envelope fails exactly when the frame value is not
a JSON object carrying a type key — the kinds of the type and payload
values are not checked; a frame missing ts_utc_ms decodes with timestamp
0; and when the coordinator reader receives a frame whose decode fails,
the exception ends the reader loop: the remaining frames are not processed
and the session is removed from the live map (the connection does not
survive), whatever the per-message dispatch does. -/
theorem C6_amended :
    (∀ j : Json, (∃ v, parse_envelope j = Except.ok v) ↔
        ∃ fields t, j = Json.obj fields ∧ dictGet fields "type" = some t)
    ∧ (∀ (fields : List (String × Json)) (t : Json), dictGet fields "type" = some t →
        dictGet fields "ts_utc_ms" = none →
        parse_envelope (Json.obj fields) =
          Except.ok (t, Json.num 0, (dictGet fields "payload").getD (Json.obj [])))
    ∧ (∀ (handle : ControllerState → Option ClientSession → Json × Json × Json →
          ControllerState × Option ClientSession)
        (st : ControllerState) (sess : ClientSession) (frame : Json)
        (rest : List Json) (e : String), parse_envelope frame = Except.error e →
        handle_client_loop handle st (some sess) (frame :: rest) = disconnect_cleanup st sess
        ∧ dictGet (disconnect_cleanup st sess).clients sess.client_id = none) := by
  refine ⟨?_, ?_, ?_⟩
  · intro j
    constructor
    · rintro ⟨v, hv⟩
      cases j with
      | obj fields =>
          cases ht : dictGet fields "type" with
          | none => simp [parse_envelope, ht] at hv
          | some t => exact ⟨fields, t, rfl, ht⟩
      | null => simp [parse_envelope] at hv
      | bool b => simp [parse_envelope] at hv
      | num n => simp [parse_envelope] at hv
      | str s => simp [parse_envelope] at hv
      | arr xs => simp [parse_envelope] at hv
    · rintro ⟨fields, t, rfl, ht⟩
      refine ⟨(t, (dictGet fields "ts_utc_ms").getD (Json.num 0),
        (dictGet fields "payload").getD (Json.obj [])), ?_⟩
      simp [parse_envelope, ht]
  · intro fields t ht hts
    simp [parse_envelope, ht, hts]
  · intro handle st sess frame rest e he
    constructor
    · unfold handle_client_loop
      rw [he]
      rfl
    · simp [disconnect_cleanup, dictGet_dictErase_self]

/-- Witness for C6: an undecodable frame (a JSON array) on a connection
whose session is client A kills that reader: the state is the cleanup
state and client A is gone from the live map, even though another frame
was still queued. -/
theorem C6_amended_witness :
    handle_client_loop (fun st sess _ => (st, sess))
        (⟨[("A", ⟨1, "A", none, "pending"⟩)], []⟩ : ControllerState)
        (some ⟨1, "A", none, "pending"⟩)
        (Json.arr [] :: [Json.obj [("type", Json.str "HEARTBEAT")]])
      = disconnect_cleanup ⟨[("A", ⟨1, "A", none, "pending"⟩)], []⟩ ⟨1, "A", none, "pending"⟩
    ∧ dictGet (disconnect_cleanup (⟨[("A", ⟨1, "A", none, "pending"⟩)], []⟩ : ControllerState)
        ⟨1, "A", none, "pending"⟩).clients "A" = none :=
  C6_amended.2.2 (fun st sess _ => (st, sess)) _ _ _ _
    "TypeError: frame is not a JSON object" rfl

/-- C5 (code bug): after a second HELLO for agent A arrives on connection 2,
the live map holds the new session (the supersede half of the claim holds);
but when the superseded connection 1 then disconnects, the cleanup of the
reader that held the old session deletes the map entry for A outright, so
the new session is gone — the source deletes by client_id without checking
that the map still points at the departing session. -/
theorem C5_code_divergence :
    (dictGet ((on_hello ((on_hello (⟨[], []⟩ : ControllerState) 1 "A" none).1)
          2 "A" none).1).clients "A" = some ⟨2, "A", none, "pending"⟩)
    ∧ dictGet (disconnect_cleanup
          ((on_hello ((on_hello (⟨[], []⟩ : ControllerState) 1 "A" none).1) 2 "A" none).1)
          ((on_hello (⟨[], []⟩ : ControllerState) 1 "A" none).2)).clients "A" = none := by
  constructor <;> simp [on_hello, disconnect_cleanup, dictSet, dictGet, dictErase]

/-- C3 (code bug): after PLAY_AT with master start 10000, the agent records
the pair (10000, 0) — connection.py line 254 hardcodes cue_start_ms = 0
with a TODO — so for a loaded cue whose start_time_ms is 5000 the drift
loop computes expected position elapsed + 0 instead of elapsed + 5000:
with offset 0 and local time 12000 the loop obtains 2000 where the
specified computation yields 7000. -/
theorem C3_code_divergence :
    (handle_play_at ⟨ClockSyncState.init, none, 0, false⟩ 10000).cue_start_master_ms = some 10000
    ∧ (handle_play_at ⟨ClockSyncState.init, none, 0, false⟩ 10000).cue_start_time_ms = 0
    ∧ correct_drift_expected (handle_play_at ⟨ClockSyncState.init, none, 0, false⟩ 10000) 12000
        = some 2000
    ∧ ((12000 - 10000) + 5000 : Int) = 7000
    ∧ (2000 : Int) ≠ 7000 := by
  refine ⟨rfl, rfl, ?_, by decide, by decide⟩
  simp [correct_drift_expected, handle_play_at, set_playing, master_now_ms,
    ClockSyncState.init, truncQ]

/-- C4 (code bug): every LOAD_CUE leaves the agent in state loading with no
emitted message, for any media-player outcome: the call at
connection.py:222 passes four positional arguments to
MpvController.load_file, which accepts one, so the TypeError is raised
before either the READY branch or the error branch can run, and the
per-message wrapper swallows it.  Neither a READY nor an observable error
state results. -/
theorem C4_code_divergence (mpv_ok : Bool) (st : AgentConn) (cue_id : String) :
    handle_load_cue mpv_ok st cue_id
      = ({ st with state := "loading", current_cue_id := some cue_id }, [])
    ∧ ("loading" : String) ≠ "ready" ∧ ("loading" : String) ≠ "error" := by
  refine ⟨?_, by decide, by decide⟩
  simp [handle_load_cue, load_file_call_arg_count, load_file_param_count]

/-- C7: a token issued by accept_client for a connected agent is stored in
the trust store and a HELLO on the resulting state presenting that
(agent_id, token) pair is auto-accepted; in general a HELLO presenting the
stored token is accepted without operator action, and a HELLO whose token
differs from the stored one yields a pending session. -/
theorem C7_trusted_auto_admission (st : ControllerState) (cid tok : String)
    (conn : Nat) (hne : tok ≠ "") :
    ((dictGet st.clients cid).isSome = true →
        (on_hello (accept_client st cid tok) conn cid (some tok)).2.status = "accepted")
    ∧ (∀ st2 : ControllerState, dictGet st2.trusted cid = some tok →
        (on_hello st2 conn cid (some tok)).2.status = "accepted")
    ∧ (∀ st2 : ControllerState, dictGet st2.trusted cid ≠ some tok →
        (on_hello st2 conn cid (some tok)).2.status = "pending") := by
  refine ⟨?_, ?_, ?_⟩
  · intro hsome
    obtain ⟨sess, hsess⟩ := Option.isSome_iff_exists.mp hsome
    have htr : dictGet (accept_client st cid tok).trusted cid = some tok := by
      unfold accept_client
      rw [hsess]
      exact dictGet_dictSet_self _ _ _
    simp [on_hello, hne, htr]
  · intro st2 h
    simp [on_hello, hne, h]
  · intro st2 h
    simp [on_hello, h]

/-- Witness for C7: with agent A connected (pending), accepting it with
token tok-1 and then receiving a fresh HELLO from A presenting tok-1
yields an accepted session with no operator action in between. -/
theorem C7_witness :
    (on_hello (accept_client ⟨[("A", ⟨1, "A", none, "pending"⟩)], []⟩ "A" "tok-1")
        2 "A" (some "tok-1")).2.status = "accepted" :=
  (C7_trusted_auto_admission ⟨[("A", ⟨1, "A", none, "pending"⟩)], []⟩ "A" "tok-1" 2
      (by decide)).1 (by simp [dictGet])

/-- C10: calling compute_drift_correction with max_drift_ms = 0 and
drift_ms = 0 reaches the unguarded division by zero (modelled as none)
for every rate pair and every non-negative hard-seek threshold, while for
max_drift_ms > 0 the function always returns an (action, rate) pair. -/
theorem C10_totality_guard :
    (∀ (hard : Int) (rate_min rate_max : ℚ), 0 ≤ hard →
        compute_drift_correction 0 0 hard rate_min rate_max = none)
    ∧ ∀ (drift_ms : ℚ) (maxd hard : Int) (rate_min rate_max : ℚ), 0 < maxd →
        (compute_drift_correction drift_ms maxd hard rate_min rate_max).isSome = true := by
  constructor
  · intro hard rmin rmax hh
    have hcast : (0 : ℚ) ≤ (hard : ℚ) := by exact_mod_cast hh
    simp [compute_drift_correction, abs_zero, not_lt.mpr hcast]
  · intro drift maxd hard rmin rmax h
    have hmz : maxd ≠ 0 := by omega
    unfold compute_drift_correction
    dsimp only
    split_ifs
    all_goals rfl

/-- C1 counterexample: at drift 200 with max_drift 150, hard threshold 300,
rate_min 0.98 and rate_max 1.02 — a point of the band
max_drift < |drift| ≤ hard_seek_threshold — the source returns the action
none with rate 1.0, not a rate_adjust with the rate clamped. -/
theorem C1_counterexample :
    compute_drift_correction 200 150 300 (98/100) (102/100) = some ("none", 1)
    ∧ ("none" : String) ≠ "rate_adjust" := by
  refine ⟨?_, by decide⟩
  unfold compute_drift_correction
  norm_num

/-- C1 (amended): for every drift_ms in the band
max_drift_ms < |drift_ms| ≤ hard_seek_threshold_ms (with
rate_min ≤ 1 ≤ rate_max and 0 < max_drift_ms ≤ hard_seek_threshold_ms),
compute_drift_correction returns the action none with rate 1.0: the
fall-through branch of the source performs no correction rather than a
clamped rate_adjust. -/
theorem C1_amended (drift_ms : ℚ) (max_drift_ms hard_seek_threshold_ms : Int)
    (rate_min rate_max : ℚ) (hr1 : rate_min ≤ 1) (hr2 : 1 ≤ rate_max)
    (hm : 0 < max_drift_ms) (hmh : max_drift_ms ≤ hard_seek_threshold_ms)
    (hlo : (max_drift_ms : ℚ) < |drift_ms|)
    (hhi : |drift_ms| ≤ (hard_seek_threshold_ms : ℚ)) :
    compute_drift_correction drift_ms max_drift_ms hard_seek_threshold_ms rate_min rate_max
      = some ("none", 1) := by
  unfold compute_drift_correction
  dsimp only
  rw [if_neg (not_lt.mpr hhi), if_neg (not_le.mpr hlo)]

/-- Witness for C1: the amended behaviour at the concrete band point
drift 200, max_drift 150, hard threshold 300, rates 0.98 and 1.02. -/
theorem C1_amended_witness :
    compute_drift_correction 200 150 300 (98/100) (102/100) = some ("none", 1) :=
  C1_amended 200 150 300 (98/100) (102/100) (by norm_num) (by norm_num)
    (by decide) (by decide) (by norm_num) (by norm_num)

/-- C8 counterexample: with rate_min = 0.98763 (which satisfies
0 < rate_min ≤ 1) and drift exactly equal to max_drift = 150, the returned
rate is round(rate_min, 4) = 0.9876, not rate_min itself: the claim that
the rate equals rate_min at the boundary fails for rates with more than
four decimal places. -/
theorem C8_counterexample :
    compute_drift_correction 150 150 300 (98763/100000) (102/100)
      = some ("rate_adjust", 2469/2500)
    ∧ (2469/2500 : ℚ) ≠ 98763/100000 := by
  refine ⟨?_, by norm_num⟩
  unfold compute_drift_correction round4 roundHalfEven
  norm_num [Int.floor_eq_iff, max_self]

/-- C8 (amended): under 0 < rate_min ≤ 1 ≤ rate_max and
0 < max_drift_ms ≤ hard_seek_threshold_ms: drift 0 returns
("rate_adjust", 1.0); drift exactly max_drift_ms returns the rate
round(rate_min, 4), and drift exactly −max_drift_ms returns
round(rate_max, 4); for every drift the returned rate is at most 1.0 when
drift is positive and at least 1.0 when drift is negative; and rounding to
four decimal places is the identity on rates with at most four decimal
places, so the boundary rate equals rate_min / rate_max exactly whenever
those have at most four decimal places, as the defaults 0.98 and 1.02 do. -/
theorem C8_amended (drift_ms : ℚ) (max_drift_ms hard_seek_threshold_ms : Int)
    (rate_min rate_max : ℚ) (h0 : 0 < rate_min) (h1 : rate_min ≤ 1) (h2 : 1 ≤ rate_max)
    (h3 : 0 < max_drift_ms) (h4 : max_drift_ms ≤ hard_seek_threshold_ms) :
    compute_drift_correction 0 max_drift_ms hard_seek_threshold_ms rate_min rate_max
        = some ("rate_adjust", 1)
    ∧ (drift_ms = (max_drift_ms : ℚ) →
        compute_drift_correction drift_ms max_drift_ms hard_seek_threshold_ms rate_min rate_max
          = some ("rate_adjust", round4 rate_min))
    ∧ (drift_ms = -(max_drift_ms : ℚ) →
        compute_drift_correction drift_ms max_drift_ms hard_seek_threshold_ms rate_min rate_max
          = some ("rate_adjust", round4 rate_max))
    ∧ (∀ a r, 0 < drift_ms →
        compute_drift_correction drift_ms max_drift_ms hard_seek_threshold_ms rate_min rate_max
          = some (a, r) → r ≤ 1)
    ∧ (∀ a r, drift_ms < 0 →
        compute_drift_correction drift_ms max_drift_ms hard_seek_threshold_ms rate_min rate_max
          = some (a, r) → 1 ≤ r)
    ∧ (∀ n : Int, round4 ((n : ℚ) / 10000) = (n : ℚ) / 10000) := by
  have hq : (0 : ℚ) < (max_drift_ms : ℚ) := by exact_mod_cast h3
  have hhq : (0 : ℚ) ≤ (hard_seek_threshold_ms : ℚ) := by
    have hih : (0 : Int) ≤ hard_seek_threshold_ms := le_trans (le_of_lt h3) h4
    exact_mod_cast hih
  have hch : (max_drift_ms : ℚ) ≤ (hard_seek_threshold_ms : ℚ) := by exact_mod_cast h4
  have hmz : max_drift_ms ≠ 0 := by omega
  refine ⟨?_, ?_, ?_, ?_, ?_, round4_four_decimals⟩
  · unfold compute_drift_correction
    dsimp only
    rw [abs_zero, if_neg (not_lt.mpr hhq), if_pos (le_of_lt hq), if_neg hmz,
      if_neg (lt_irrefl (0 : ℚ))]
    have hone : rate_max ⊓ (1 + 0 / (max_drift_ms : ℚ) * (rate_max - 1)) = 1 := by
      rw [zero_div, zero_mul, add_zero, min_eq_right h2]
    rw [hone, round4_one]
  · intro hd
    subst hd
    unfold compute_drift_correction
    dsimp only
    rw [abs_of_pos hq, if_neg (not_lt.mpr hch), if_pos (le_refl _), if_neg hmz,
      if_pos hq]
    have hr : rate_min ⊔ (1 - (max_drift_ms : ℚ) / (max_drift_ms : ℚ) * (1 - rate_min))
        = rate_min := by
      rw [div_self (ne_of_gt hq), one_mul, sub_sub_cancel, max_self]
    rw [hr]
  · intro hd
    subst hd
    unfold compute_drift_correction
    dsimp only
    rw [abs_neg, abs_of_pos hq, if_neg (not_lt.mpr hch), if_pos (le_refl _), if_neg hmz,
      if_neg (not_lt.mpr (le_of_lt (neg_neg_of_pos hq)))]
    have hr : rate_max ⊓ (1 + (max_drift_ms : ℚ) / (max_drift_ms : ℚ) * (rate_max - 1))
        = rate_max := by
      have harith : (1 : ℚ) + (rate_max - 1) = rate_max := by ring
      rw [div_self (ne_of_gt hq), one_mul, harith, min_self]
    rw [hr]
  · intro a r hdp heq
    have hs0 : (0 : ℚ) ≤ |drift_ms| / (max_drift_ms : ℚ) :=
      div_nonneg (abs_nonneg _) (le_of_lt hq)
    unfold compute_drift_correction at heq
    dsimp only at heq
    split_ifs at heq
    · simp only [Option.some.injEq, Prod.mk.injEq] at heq
      linarith [heq.2]
    · simp only [Option.some.injEq, Prod.mk.injEq] at heq
      rw [← heq.2]
      apply round4_le_one
      apply max_le h1
      nlinarith
    · simp only [Option.some.injEq, Prod.mk.injEq] at heq
      linarith [heq.2]
  · intro a r hdn heq
    have hnp : ¬ (0 : ℚ) < drift_ms := not_lt.mpr (le_of_lt hdn)
    have hs0 : (0 : ℚ) ≤ |drift_ms| / (max_drift_ms : ℚ) :=
      div_nonneg (abs_nonneg _) (le_of_lt hq)
    unfold compute_drift_correction at heq
    dsimp only at heq
    split_ifs at heq
    · simp only [Option.some.injEq, Prod.mk.injEq] at heq
      linarith [heq.2]
    · simp only [Option.some.injEq, Prod.mk.injEq] at heq
      rw [← heq.2]
      apply one_le_round4
      apply le_min h2
      nlinarith
    · simp only [Option.some.injEq, Prod.mk.injEq] at heq
      linarith [heq.2]

/-- Witness for C8: the amended boundary behaviour at the default rates:
drift equal to max_drift 150 returns round(0.98, 4), which is exactly the
rate_min 0.98 because it has at most four decimal places. -/
theorem C8_amended_witness :
    compute_drift_correction 150 150 300 (98/100) (102/100)
      = some ("rate_adjust", 98/100) := by
  have h := C8_amended 150 150 300 (98/100) (102/100) (by norm_num) (by norm_num)
    (by norm_num) (by decide) (by decide)
  have hb := h.2.1 (by norm_num)
  have hid := h.2.2.2.2.2 9800
  norm_num at hid
  rw [hb]
  norm_num [hid]

/-- C2 counterexample: three samples whose rtts are all −10 (possible,
since rtt is a difference of clock readings) make the retained subset
empty: the median rtt is −10, twice it is −20, and no sample has
rtt ≤ −20.  The source then keeps the previous offset (6, the median of
the first two offsets 5 and 7), while the claimed value — the median of
the retained samples — does not exist, so the offset does not equal the
claimed invariant value after that add_sample call. -/
theorem C2_counterexample :
    specOffset (add_sample (add_sample (add_sample ClockSyncState.init ⟨0, 0, 20, 10⟩)
        ⟨0, 2, 22, 10⟩) ⟨0, 4, 24, 10⟩).samples = none
    ∧ (add_sample (add_sample (add_sample ClockSyncState.init ⟨0, 0, 20, 10⟩)
        ⟨0, 2, 22, 10⟩) ⟨0, 4, 24, 10⟩).offset_ms = 6
    ∧ specOffset (add_sample (add_sample (add_sample ClockSyncState.init ⟨0, 0, 20, 10⟩)
        ⟨0, 2, 22, 10⟩) ⟨0, 4, 24, 10⟩).samples
      ≠ some (add_sample (add_sample (add_sample ClockSyncState.init ⟨0, 0, 20, 10⟩)
        ⟨0, 2, 22, 10⟩) ⟨0, 4, 24, 10⟩).offset_ms := by
  have h1 : add_sample ClockSyncState.init ⟨0, 0, 20, 10⟩ = ⟨[⟨0, 0, 20, 10⟩], 5⟩ := by
    norm_num [add_sample, recompute, median, sortQ, insSorted,
      SyncSample.rtt_ms, SyncSample.offset_ms, ClockSyncState.init, WINDOW, OUTLIER_FACTOR]
  have h2 : add_sample ⟨[⟨0, 0, 20, 10⟩], 5⟩ ⟨0, 2, 22, 10⟩
      = ⟨[⟨0, 0, 20, 10⟩, ⟨0, 2, 22, 10⟩], 6⟩ := by
    norm_num [add_sample, recompute, median, sortQ, insSorted,
      SyncSample.rtt_ms, SyncSample.offset_ms, WINDOW, OUTLIER_FACTOR]
    rfl
  have h3 : add_sample ⟨[⟨0, 0, 20, 10⟩, ⟨0, 2, 22, 10⟩], 6⟩ ⟨0, 4, 24, 10⟩
      = ⟨[⟨0, 0, 20, 10⟩, ⟨0, 2, 22, 10⟩, ⟨0, 4, 24, 10⟩], 6⟩ := by
    norm_num [add_sample, recompute, median, sortQ, insSorted, List.filter,
      SyncSample.rtt_ms, SyncSample.offset_ms, WINDOW, OUTLIER_FACTOR]
  rw [h1, h2, h3]
  have hspec : specOffset [(⟨0, 0, 20, 10⟩ : SyncSample), ⟨0, 2, 22, 10⟩, ⟨0, 4, 24, 10⟩]
      = none := by
    norm_num [specOffset, median, sortQ, insSorted, List.filter,
      SyncSample.rtt_ms, SyncSample.offset_ms, OUTLIER_FACTOR]
    intro hcontra
    simp at hcontra
  exact ⟨hspec, rfl, by rw [hspec]; simp⟩

/-- C2 (amended): after every add_sample call the offset estimate equals
the value the specification describes whenever that value exists — the
median of the offsets of the samples with rtt at most twice the median rtt
when the window holds at least 3 samples and that retained subset is
non-empty (which is guaranteed whenever the median rtt is non-negative),
and the median of all the offsets when the window holds 1 or 2 samples —
while a window whose retained subset is empty (possible only with negative
rtts) keeps the previous offset.  In particular, after six samples with
rtt 10 and offset 0 followed by one sample with rtt 500 and offset +100,
the estimate stays within 5 of 0. -/
theorem C2_amended :
    (∀ (st : ClockSyncState) (s : SyncSample) (v : ℚ),
        specOffset (add_sample st s).samples = some v → (add_sample st s).offset_ms = v)
    ∧ |(List.foldl add_sample ClockSyncState.init
        [⟨0, 5, 5, 10⟩, ⟨1000, 1005, 1005, 1010⟩, ⟨2000, 2005, 2005, 2010⟩,
         ⟨3000, 3005, 3005, 3010⟩, ⟨4000, 4005, 4005, 4010⟩, ⟨5000, 5005, 5005, 5010⟩,
         ⟨9000, 9350, 9350, 9500⟩]).offset_ms| ≤ 5 := by
  constructor
  · intro st s v hs
    have hne := add_sample_samples_ne_nil st s
    rw [show add_sample st s = recompute { st with samples :=
        if WINDOW < (st.samples ++ [s]).length then (st.samples ++ [s]).drop 1
        else st.samples ++ [s] } from rfl] at hs hne ⊢
    rw [recompute_samples] at hs hne
    exact recompute_matches_spec _ v hne hs
  · have e1 : add_sample ClockSyncState.init ⟨0, 5, 5, 10⟩ = ⟨[⟨0, 5, 5, 10⟩], 0⟩ := by
      norm_num [add_sample, recompute, median, sortQ, insSorted,
        SyncSample.rtt_ms, SyncSample.offset_ms, ClockSyncState.init, WINDOW, OUTLIER_FACTOR]
    have e2 : add_sample ⟨[⟨0, 5, 5, 10⟩], 0⟩ ⟨1000, 1005, 1005, 1010⟩
        = ⟨[⟨0, 5, 5, 10⟩, ⟨1000, 1005, 1005, 1010⟩], 0⟩ := by
      norm_num [add_sample, recompute, median, sortQ, insSorted,
        SyncSample.rtt_ms, SyncSample.offset_ms, WINDOW, OUTLIER_FACTOR]
      try rfl
    have e3 : add_sample ⟨[⟨0, 5, 5, 10⟩, ⟨1000, 1005, 1005, 1010⟩], 0⟩
        ⟨2000, 2005, 2005, 2010⟩
        = ⟨[⟨0, 5, 5, 10⟩, ⟨1000, 1005, 1005, 1010⟩, ⟨2000, 2005, 2005, 2010⟩], 0⟩ := by
      norm_num [add_sample, recompute, median, sortQ, insSorted, List.filter,
        SyncSample.rtt_ms, SyncSample.offset_ms, WINDOW, OUTLIER_FACTOR]
      try rfl
    have e4 : add_sample ⟨[⟨0, 5, 5, 10⟩, ⟨1000, 1005, 1005, 1010⟩,
          ⟨2000, 2005, 2005, 2010⟩], 0⟩ ⟨3000, 3005, 3005, 3010⟩
        = ⟨[⟨0, 5, 5, 10⟩, ⟨1000, 1005, 1005, 1010⟩, ⟨2000, 2005, 2005, 2010⟩,
            ⟨3000, 3005, 3005, 3010⟩], 0⟩ := by
      norm_num [add_sample, recompute, median, sortQ, insSorted, List.filter,
        SyncSample.rtt_ms, SyncSample.offset_ms, WINDOW, OUTLIER_FACTOR]
      try rfl
    have e5 : add_sample ⟨[⟨0, 5, 5, 10⟩, ⟨1000, 1005, 1005, 1010⟩,
          ⟨2000, 2005, 2005, 2010⟩, ⟨3000, 3005, 3005, 3010⟩], 0⟩ ⟨4000, 4005, 4005, 4010⟩
        = ⟨[⟨0, 5, 5, 10⟩, ⟨1000, 1005, 1005, 1010⟩, ⟨2000, 2005, 2005, 2010⟩,
            ⟨3000, 3005, 3005, 3010⟩, ⟨4000, 4005, 4005, 4010⟩], 0⟩ := by
      norm_num [add_sample, recompute, median, sortQ, insSorted, List.filter,
        SyncSample.rtt_ms, SyncSample.offset_ms, WINDOW, OUTLIER_FACTOR]
      try rfl
    have e6 : add_sample ⟨[⟨0, 5, 5, 10⟩, ⟨1000, 1005, 1005, 1010⟩,
          ⟨2000, 2005, 2005, 2010⟩, ⟨3000, 3005, 3005, 3010⟩,
          ⟨4000, 4005, 4005, 4010⟩], 0⟩ ⟨5000, 5005, 5005, 5010⟩
        = ⟨[⟨0, 5, 5, 10⟩, ⟨1000, 1005, 1005, 1010⟩, ⟨2000, 2005, 2005, 2010⟩,
            ⟨3000, 3005, 3005, 3010⟩, ⟨4000, 4005, 4005, 4010⟩,
            ⟨5000, 5005, 5005, 5010⟩], 0⟩ := by
      norm_num [add_sample, recompute, median, sortQ, insSorted, List.filter,
        SyncSample.rtt_ms, SyncSample.offset_ms, WINDOW, OUTLIER_FACTOR]
      try rfl
    have e7 : add_sample ⟨[⟨0, 5, 5, 10⟩, ⟨1000, 1005, 1005, 1010⟩,
          ⟨2000, 2005, 2005, 2010⟩, ⟨3000, 3005, 3005, 3010⟩,
          ⟨4000, 4005, 4005, 4010⟩, ⟨5000, 5005, 5005, 5010⟩], 0⟩ ⟨9000, 9350, 9350, 9500⟩
        = ⟨[⟨0, 5, 5, 10⟩, ⟨1000, 1005, 1005, 1010⟩, ⟨2000, 2005, 2005, 2010⟩,
            ⟨3000, 3005, 3005, 3010⟩, ⟨4000, 4005, 4005, 4010⟩,
            ⟨5000, 5005, 5005, 5010⟩, ⟨9000, 9350, 9350, 9500⟩], 0⟩ := by
      norm_num [add_sample, recompute, median, sortQ, insSorted, List.filter,
        SyncSample.rtt_ms, SyncSample.offset_ms, WINDOW, OUTLIER_FACTOR]
      try rfl
    simp only [List.foldl_cons, List.foldl_nil]
    rw [e1, e2, e3, e4, e5, e6, e7]
    norm_num

/-- Witness for C2: one concrete add_sample call in which the spec value
exists (a single sample of offset 0) and the state offset agrees with it. -/
theorem C2_amended_witness :
    (add_sample ClockSyncState.init ⟨0, 5, 5, 10⟩).offset_ms = 0 :=
  C2_amended.1 ClockSyncState.init ⟨0, 5, 5, 10⟩ 0 (by
    have e1 : add_sample ClockSyncState.init ⟨0, 5, 5, 10⟩ = ⟨[⟨0, 5, 5, 10⟩], 0⟩ := by
      norm_num [add_sample, recompute, median, sortQ, insSorted,
        SyncSample.rtt_ms, SyncSample.offset_ms, ClockSyncState.init, WINDOW, OUTLIER_FACTOR]
    rw [e1]
    norm_num [specOffset, median, sortQ, insSorted, SyncSample.offset_ms])

/-- Witness for C10: with the default thresholds, drift 0 and max_drift 0
hit the division (none), while drift 75 with max_drift 150 returns a pair. -/
theorem C10_witness :
    compute_drift_correction 0 0 300 (98/100) (102/100) = none
    ∧ (compute_drift_correction 75 150 300 (98/100) (102/100)).isSome = true :=
  ⟨C10_totality_guard.1 300 (98/100) (102/100) (by decide),
   C10_totality_guard.2 75 150 300 (98/100) (102/100) (by decide)⟩
